import Mathlib

/-!
Verification development for the Power BI backup/restore orchestration engine
(`restore_service.py` and `auth_and_api.py`).

The Python services are embedded shallowly:

* remote transport is a parameter (a response-policy function plus an explicit
  trace of issued requests), never modelled as I/O;
* Python dicts built from key/value pair sequences are association lists with
  last-binding-wins lookup (`dictGet`);
* Python truthiness on the values the code actually tests (`None`, `""`,
  empty list/dict) is modelled explicitly where the source relies on it;
* every `async` method is a pure function from its inputs and its remote
  environment to its result; exceptions become `Except String`.
-/

/-- A Python dict built from a list of key/value pairs: a later binding for the
same key overrides an earlier one, so lookup takes the last matching pair. -/
def dictGet (l : List (String × String)) (k : String) : Option String :=
  (l.reverse.find? (fun p => p.1 == k)).map (fun p => p.2)

/-- Python `k in d` membership test for such a dict. -/
def hasKey (l : List (String × String)) (k : String) : Bool :=
  l.any (fun p => p.1 == k)

/-- Python truthiness of the value bound to `dataset_id` in
`restore_refresh_schedules`: `None` and the empty string are falsy. -/
def pyFalsyId : Option String → Bool
  | none => true
  | some s => s == ""

/-- Python truthiness of the optional `dataset_mapping` argument:
`None` and an empty dict are falsy. -/
def pyTruthyMapping : Option (List (String × String)) → Bool
  | none => false
  | some m => !m.isEmpty

/-- One dataset object as returned by `get_datasets` (the fields the restore
services read: `id` and `name`). -/
structure DatasetInfo where
  id : String
  name : String
deriving DecidableEq, Repr

/-- A refresh-schedule configuration as stored in a backup entry and as sent to
the API: `{days, times, enabled, localTimeZoneId, notifyOption}`.  The Python
code reads these keys with `.get` and a default; the record keeps every field
explicit (an absent key is the default value). -/
structure ScheduleConfig where
  days : List String
  times : List String
  enabled : Bool
  localTimeZoneId : String
  notifyOption : String
deriving DecidableEq, Repr

/-- One entry of the `refresh_schedules` list of a backup. -/
structure ScheduleEntry where
  dataset_name : String
  schedule : ScheduleConfig
deriving DecidableEq, Repr

/-- One PATCH request issued to the refreshSchedule endpoint. -/
structure PatchReq where
  dataset_id : String
  payload : ScheduleConfig
deriving DecidableEq, Repr

/-- The remote workspace as the refresh-schedules service sees it: the dataset
list (read once per phase through `get_datasets`), whether that listing call
succeeds, and the stored per-dataset refresh schedules (written by PATCH,
never read by the restore path). -/
structure Remote where
  datasets : List DatasetInfo
  listingOk : Bool
  schedules : String → Option ScheduleConfig

/-- Embedding of `PowerBIApiClient.update_refresh_schedule`
(`auth_and_api.py` lines 128-216).  `patchStatus` is the remote response
policy for the PATCH request (a transport exception is equivalent to a
non-success status: both make the method return `False`, since it catches
every exception itself and never raises).  Returns the boolean result, the
updated remote state, and the list of PATCH requests actually issued. -/
def update_refresh_schedule (patchStatus : String → ScheduleConfig → Nat)
    (remote : Remote) (dataset_id : String) (schedule_config : ScheduleConfig) :
    Bool × Remote × List PatchReq :=
  let days := schedule_config.days
  let times := schedule_config.times
  let enabled := schedule_config.enabled
  -- Skip if schedule is disabled
  if !enabled then (true, remote, [])
  -- If no schedule in backup (empty days and times), skip restoration
  else if days.isEmpty && times.isEmpty then (true, remote, [])
  -- Ensure both days AND times exist for enabled refresh
  else if days.isEmpty || times.isEmpty then (true, remote, [])
  else
    let payload : ScheduleConfig :=
      { days := days, times := times, enabled := true,
        localTimeZoneId := schedule_config.localTimeZoneId,
        notifyOption := schedule_config.notifyOption }
    let status := patchStatus dataset_id payload
    if status == 200 || status == 201 || status == 202 then
      (true,
       { remote with
         schedules := fun i => if i = dataset_id then some payload else remote.schedules i },
       [⟨dataset_id, payload⟩])
    else
      (false, remote, [⟨dataset_id, payload⟩])

/-- One per-entry detail record of the refresh-schedules phase (the three
record shapes appended to `results["details"]`). -/
inductive RefreshDetail where
  | skipped (dataset : String) (reason : String)
  | configured (dataset : String) (dataset_id : String)
  | updateFailed (dataset : String) (dataset_id : String) (error : String)
deriving DecidableEq, Repr

/-- The counters and details of the refresh-schedules phase result dict. -/
structure RefreshResults where
  status : String
  restored : Nat
  failed : Nat
  skipped : Nat
  details : List RefreshDetail
deriving DecidableEq, Repr

/-- Accumulator threaded through the schedule-entry loop: the result dict under
construction, the remote state, and the trace of issued PATCH requests. -/
structure RefreshAcc where
  results : RefreshResults
  remote : Remote
  patches : List PatchReq

/-- Embedding of the dataset-id resolution of `restore_refresh_schedules`
(`restore_service.py` lines 530-535): prefer the mapping when it is truthy and
has the name, else fall back to the `datasets` dict built from the listing. -/
def resolveDatasetId (dataset_mapping : Option (List (String × String)))
    (datasets : List (String × String)) (dataset_name : String) : Option String :=
  if pyTruthyMapping dataset_mapping && hasKey (dataset_mapping.getD []) dataset_name then
    dictGet (dataset_mapping.getD []) dataset_name
  else if hasKey datasets dataset_name then
    dictGet datasets dataset_name
  else
    none

/-- The body of the per-entry loop of `restore_refresh_schedules`
(`restore_service.py` lines 523-602).  `datasets` is the name-to-id dict the
phase computed once before the loop.  Nothing in the loop body can raise in
the embedding because `update_refresh_schedule` catches its own exceptions
and returns `False` (so the per-entry `except` branch of the source is dead
code modulo logging failures). -/
def processEntry (patchStatus : String → ScheduleConfig → Nat)
    (datasets : List (String × String))
    (dataset_mapping : Option (List (String × String)))
    (acc : RefreshAcc) (entry : ScheduleEntry) : RefreshAcc :=
  let dataset_id := resolveDatasetId dataset_mapping datasets entry.dataset_name
  if pyFalsyId dataset_id then
    { acc with
      results := { acc.results with
        skipped := acc.results.skipped + 1,
        details := acc.results.details ++
          [RefreshDetail.skipped entry.dataset_name "Dataset not found in target workspace"] } }
  else
    let id := dataset_id.getD ""
    let api_schedule_config : ScheduleConfig :=
      { days := entry.schedule.days, times := entry.schedule.times,
        enabled := entry.schedule.enabled,
        localTimeZoneId := entry.schedule.localTimeZoneId,
        notifyOption := entry.schedule.notifyOption }
    let step := update_refresh_schedule patchStatus acc.remote id api_schedule_config
    if step.1 then
      { results := { acc.results with
          restored := acc.results.restored + 1,
          details := acc.results.details ++
            [RefreshDetail.configured entry.dataset_name id] },
        remote := step.2.1,
        patches := acc.patches ++ step.2.2 }
    else
      { results := { acc.results with
          failed := acc.results.failed + 1,
          details := acc.results.details ++
            [RefreshDetail.updateFailed entry.dataset_name id "API call failed"] },
        remote := step.2.1,
        patches := acc.patches ++ step.2.2 }

/-- The name-to-id dict used by the entry loop (`restore_service.py` lines
514-521): the listing result when `get_datasets` succeeds, otherwise the
Python fallback `dataset_mapping or {}`. -/
def datasetsTable (remote : Remote)
    (dataset_mapping : Option (List (String × String))) : List (String × String) :=
  if remote.listingOk then remote.datasets.map (fun d => (d.name, d.id))
  else dataset_mapping.getD []

/-- Embedding of `RefreshSchedulesRestoreService.restore_refresh_schedules`
(`restore_service.py` lines 486-609).  The result status is initialised to
`"completed"` and never changed by the loop. -/
def restore_refresh_schedules (patchStatus : String → ScheduleConfig → Nat)
    (remote : Remote) (schedules : List ScheduleEntry)
    (dataset_mapping : Option (List (String × String))) : RefreshAcc :=
  let table := datasetsTable remote dataset_mapping
  schedules.foldl (processEntry patchStatus table dataset_mapping)
    { results := { status := "completed", restored := 0, failed := 0, skipped := 0, details := [] },
      remote := remote, patches := [] }

/-! ## Reports phase (`ReportsRestoreService.restore_reports_pbix`) -/

/-- The f-string `f"{report_name}_{counter}"` used by the duplicate-name loop. -/
def candidateName (base : String) (c : Nat) : String :=
  base ++ "_" ++ toString c

/-- The `while f"{report_name}_{counter}" in existing_datasets: counter += 1`
loop of `restore_service.py` lines 91-93, starting from counter `c`.  The fuel
argument only bounds the iteration count for structural recursion; the callers
pass `existing.length + 1` steps, which covers every run the Python loop can
make (the loop advances past at most `existing.length` occupied candidates,
since the candidate strings for distinct counters are distinct). -/
def firstFreeAux (existing : List String) (base : String) : Nat → Nat → Nat
  | 0, c => c
  | Nat.succ fuel, c =>
      if candidateName base c ∈ existing then firstFreeAux existing base fuel (c + 1) else c

/-- The counter value at which the duplicate-name loop stops, starting at 1. -/
def firstFree (existing : List String) (base : String) : Nat :=
  firstFreeAux existing base (existing.length + 1) 1

/-- Duplicate handling of `restore_service.py` lines 88-96: keep the derived
name when it is not already taken, otherwise append `_c` for the first counter
`c = 1, 2, ...` whose candidate is unused.  The boolean reports whether the
duplicate branch ran (it is what increments `duplicate_handled`). -/
def resolveReportName (existing : List String) (report_name : String) : String × Bool :=
  if report_name ∈ existing then
    (candidateName report_name (firstFree existing report_name), true)
  else
    (report_name, false)

/-- Per-item detail record appended by the Reports phase: the three dict
shapes of `restore_service.py` lines 131-138, 143-148 and 153-157. -/
inductive ReportDetail where
  | imported (file : String) (dataset_name : String) (original_name : String)
      (new_dataset_id : String)
  | failed (file : String) (dataset_name : String) (error : String)
  | errored (file : String) (error : String)
deriving DecidableEq, Repr

/-- The Reports phase result dict (`restore_service.py` lines 42-51). -/
structure ReportsResults where
  status : String
  imported : Nat
  failed : Nat
  duplicate_handled : Nat
  details : List ReportDetail
  pbix_files_found : Nat
  dataset_id_mapping : List (String × String)
  error : Option String
deriving DecidableEq, Repr

/-- Environment of one item of the Reports phase: the outcome of the
`import_pbix` call (an exception or its boolean result) and the outcome of the
post-import `get_datasets` lookup. -/
structure ItemEnv where
  importResult : Except String Bool
  lookupAfter : Except String (List DatasetInfo)

/-- Accumulator of the Reports item loop: the result dict, the mutable
`existing_datasets` name list, and the function-scope binding state of the
Python variable `new_dataset_id` (`none` while it has never been assigned;
referencing it then raises `NameError`). -/
structure ReportsAcc where
  results : ReportsResults
  existing : List String
  nds : Option (Option String)

/-- Python truthiness of `new_dataset_id` at `restore_service.py` lines 121 and
135: `None` and `""` are falsy, any other id string is truthy. -/
def idFieldOf (found : Option String) : String :=
  match found with
  | some id => if id == "" then "pending" else id
  | none => "pending"

/-- Body of the `for pbix_file in pbix_files` loop of `restore_service.py`
lines 82-157.  The outer per-item `try` catches everything, including the
`NameError` that occurs when the post-import `get_datasets` call raises on an
iteration where `new_dataset_id` has never been bound (the assignment at line
113 sits after that call inside the inner `try`, and the detail dict at line
135 reads the variable outside it; note that `imported` was already
incremented at line 130 before the failing read, so that item is counted in
both `imported` and `failed`). -/
def reportsItemStep (env : String → ItemEnv) (acc : ReportsAcc) (stem : String) : ReportsAcc :=
  let res := acc.results
  let report_name := stem
  let fileName := stem ++ ".pbix"
  let resolved := resolveReportName acc.existing report_name
  let final_dataset_name := resolved.1
  let res := if resolved.2 then { res with duplicate_handled := res.duplicate_handled + 1 } else res
  match (env stem).importResult with
  | Except.error e =>
      { acc with results := { res with
          failed := res.failed + 1,
          details := res.details ++ [ReportDetail.errored fileName e] } }
  | Except.ok false =>
      { acc with results := { res with
          failed := res.failed + 1,
          details := res.details ++
            [ReportDetail.failed fileName final_dataset_name "Import returned False"] } }
  | Except.ok true =>
      match (env stem).lookupAfter with
      | Except.ok ds =>
          let found : Option String :=
            (ds.find? (fun d => d.name == final_dataset_name)).map (fun d => d.id)
          let res :=
            match found with
            | some id =>
                if id == "" then res
                else { res with dataset_id_mapping := res.dataset_id_mapping ++ [(report_name, id)] }
            | none => res
          { results := { res with
              imported := res.imported + 1,
              details := res.details ++
                [ReportDetail.imported fileName final_dataset_name report_name (idFieldOf found)] },
            existing := acc.existing ++ [final_dataset_name],
            nds := some found }
      | Except.error _ =>
          match acc.nds with
          | none =>
              { acc with results := { res with
                  imported := res.imported + 1,
                  failed := res.failed + 1,
                  details := res.details ++
                    [ReportDetail.errored fileName
                      "NameError: new_dataset_id referenced before assignment"] } }
          | some stale =>
              { results := { res with
                  imported := res.imported + 1,
                  details := res.details ++
                    [ReportDetail.imported fileName final_dataset_name report_name
                      (idFieldOf stale)] },
                existing := acc.existing ++ [final_dataset_name],
                nds := acc.nds }

/-- Embedding of `ReportsRestoreService.restore_reports_pbix`
(`restore_service.py` lines 17-174).  `dirExists` is the `os.path.exists`
check, `files` the sorted stems of the globbed `*.pbix` files, and
`initialListing` the `get_datasets` call whose failure leaves
`existing_datasets` empty (lines 72-79). -/
def restore_reports_pbix (env : String → ItemEnv) (dirExists : Bool)
    (initialListing : Except String (List DatasetInfo))
    (files : List String) : ReportsResults :=
  let init : ReportsResults :=
    { status := "in_progress", imported := 0, failed := 0, duplicate_handled := 0,
      details := [], pbix_files_found := 0, dataset_id_mapping := [], error := none }
  if !dirExists then
    { init with status := "failed", error := some "Directory not found" }
  else
    let init := { init with pbix_files_found := files.length }
    if files.length == 0 then
      { init with status := "completed" }
    else
      let existing0 : List String :=
        match initialListing with
        | Except.ok ds => ds.map (fun d => d.name)
        | Except.error _ => []
      let accF := files.foldl (reportsItemStep env) ⟨init, existing0, none⟩
      { accF.results with status := "completed" }

/-! ## Name handling inside `PowerBIApiClient.import_pbix` -/

/-- The double-quote character. -/
def quoteChar : Char := Char.ofNat 34

/-- The single-quote character. -/
def apostropheChar : Char := Char.ofNat 39

/-- One character of the `report_name` sanitisation chain of `auth_and_api.py`
line 267.  The Python code is a sequence of `str.replace` calls with
one-character patterns whose replacement strings never contain a later
pattern, so the chain is equivalent to this single per-character pass:
space, `/` and `\` become `_`; double and single quotes are removed. -/
def sanitizeChar (c : Char) : List Char :=
  if c = ' ' ∨ c = '/' ∨ c = '\\' then ['_']
  else if c = quoteChar ∨ c = apostropheChar then []
  else [c]

/-- Python `s and s[0].isdigit()`. -/
def startsWithDigit (s : String) : Bool :=
  match s.data with
  | [] => false
  | c :: _ => c.isDigit

/-- The `report_name` sanitisation of `auth_and_api.py` lines 264-274:
character replacement, the `"ImportedReport"` fallback for an empty result,
and the `"Report_"` prefixing of a name starting with a digit. -/
def sanitizeReportName (name : String) : String :=
  let s := String.mk (name.data.flatMap sanitizeChar)
  let s := if s == "" then "ImportedReport" else s
  if startsWithDigit s then "Report_" ++ s else s

/-- The `while dataset_display_name in dataset_names: counter += 1; ...` loop
of `auth_and_api.py` lines 305-310, starting from counter `c` and name `cur`:
unlike the Reports-phase loop, the counter is incremented before it is first
used, so the candidate suffixes start at `_2`.  Fuel as in `firstFreeAux`. -/
def dedupDisplayNameAux (names : List String) (original : String) :
    Nat → Nat → String → String
  | 0, _, cur => cur
  | Nat.succ fuel, c, cur =>
      if cur ∈ names then
        dedupDisplayNameAux names original fuel (c + 1) (candidateName original (c + 1))
      else cur

/-- The dataset display name `import_pbix` puts in the request URL
(`auth_and_api.py` lines 292-316): the raw filename stem, deduplicated
against the target dataset names when the listing call succeeds (the
`except: pass` at lines 311-313 keeps the raw stem otherwise).  The sanitised
`report_name` is not used here. -/
def datasetDisplayName (stem : String) (existingNames : Except String (List String)) : String :=
  match existingNames with
  | Except.ok names => dedupDisplayNameAux names stem (names.length + 1) 1 stem
  | Except.error _ => stem

/-- The import request issued by `import_pbix`: the workspace and the
`datasetDisplayName` query parameter of the POST URL (line 316). -/
structure ImportRequest where
  workspaceId : String
  displayName : String
deriving DecidableEq, Repr

/-- The name computations of `PowerBIApiClient.import_pbix`
(`auth_and_api.py` lines 247-345), sliced to its data flow: the sanitised
`report_name` (used for logging and the success message only) and the import
request actually posted.  Transport, token validation and file I/O are
external collaborators and are elided. -/
def import_pbix_names (workspace_id : String) (stem : String)
    (report_name : Option String)
    (existingNames : Except String (List String)) : String × ImportRequest :=
  let rn := sanitizeReportName (report_name.getD stem)
  (rn, ⟨workspace_id, datasetDisplayName stem existingNames⟩)

/-! ## Orchestrator (`CompletePowerBIRestoreService`) -/

/-- What the legacy `ReportsRestoreService.restore_reports` returns: a bare
Python int (the count), `restore_service.py` lines 176-194.  The value the
orchestrator would need, a result dict carrying `dataset_id_mapping`, is what
`restore_reports_pbix` returns; this sum distinguishes the two shapes. -/
inductive ReportsPhaseValue where
  | intCount (n : Nat)
  | resultDict (dataset_id_mapping : List (String × String))
deriving DecidableEq, Repr

/-- Python `value.get("dataset_id_mapping", {})`: only a dict has the `get`
attribute, so the call on an int raises `AttributeError`. -/
def getDatasetIdMapping : ReportsPhaseValue → Except String (List (String × String))
  | ReportsPhaseValue.intCount _ =>
      Except.error "AttributeError: int object has no attribute get"
  | ReportsPhaseValue.resultDict m => Except.ok m

/-- Embedding of the legacy `ReportsRestoreService.restore_reports`
(`restore_service.py` lines 176-194): it only counts the metadata records. -/
def restore_reports (reports : List String) : ReportsPhaseValue :=
  ReportsPhaseValue.intCount reports.length

/-- The backup data dict handed to `restore_all_components`; record fields the
orchestrator reads with `backup_data.get(key, [])`.  Metadata records other
than refresh schedules are kept abstract as strings. -/
structure BackupData where
  reports : List String
  datasets : List String
  refresh_schedules : List ScheduleEntry
  dashboards : List String
  dataflows : List String
  apps : List String

/-- Outcomes of the five orchestrated phase calls that follow the Reports
phase, as functions of the arguments the orchestrator passes.  An
`Except.error e` models the phase call raising, which the orchestrator records
as the `{"status": "failed", "error": e}` component dict. -/
structure OrchEnv (π : Type) where
  datasetsPhase : List String → Except String π
  refreshPhase : List ScheduleEntry → List (String × String) → Except String π
  dashboardsPhase : List String → Except String π
  dataflowsPhase : List String → Except String π
  appsPhase : List String → Except String π

/-- The `components` dict of the orchestrator result plus its final status.
Each component holds either the phase result or, after a caught phase
exception, the failure record (modelled as the `Except` error). -/
structure OrchResult (π : Type) where
  status : String
  reports : Except String ReportsPhaseValue
  datasets : Except String π
  refresh : Except String π
  dashboards : Except String π
  dataflows : Except String π
  apps : Except String π

/-- Embedding of `CompletePowerBIRestoreService.restore_all_components`
(`restore_service.py` lines 666-806).  `dataset_id_mapping` starts empty at
line 710; phase 1 calls the legacy `restore_reports` (line 712), whose int
result makes the `reports_result.get("dataset_id_mapping", {})` extraction at
line 718 raise inside the phase-1 `try`, so the reports component is recorded
failed and the mapping keeps its initial value; every later phase is wrapped
in its own `try`/`except` and always runs. -/
def restore_all_components {π : Type} (env : OrchEnv π) (backup : BackupData) :
    OrchResult π :=
  let dataset_id_mapping : List (String × String) := []
  let reports_result := restore_reports backup.reports
  let phase1 :=
    match getDatasetIdMapping reports_result with
    | Except.ok m => (Except.ok reports_result, m)
    | Except.error e => (Except.error e, dataset_id_mapping)
  { status := "completed",
    reports := phase1.1,
    datasets := env.datasetsPhase backup.datasets,
    refresh := env.refreshPhase backup.refresh_schedules phase1.2,
    dashboards := env.dashboardsPhase backup.dashboards,
    dataflows := env.dataflowsPhase backup.dataflows,
    apps := env.appsPhase backup.apps }

/-! ## `restore_pbix_files` and the positional-arity slip -/

/-- Filesystem view used by `restore_pbix_files`: whether a directory exists
and the sorted stems of the `*.pbix` files it contains. -/
structure FsEnv where
  dirExists : String → Bool
  filesIn : String → List String

/-- Positional-call model of the bound method `restore_reports_pbix`: its
definition (`restore_service.py` lines 17-21) declares exactly two parameters
after `self`, so a call supplying any other number of positional arguments
raises `TypeError` before the body runs. -/
def call_restore_reports_pbix (fs : FsEnv) (env : String → ItemEnv)
    (initialListing : Except String (List DatasetInfo))
    (args : List String) : Except String ReportsResults :=
  match args with
  | [_target_workspace_id, pbix_files_path] =>
      Except.ok (restore_reports_pbix env (fs.dirExists pbix_files_path)
        initialListing (fs.filesIn pbix_files_path))
  | _ =>
      Except.error
        "TypeError: restore_reports_pbix takes 3 positional arguments but 4 were given"

/-- Embedding of `CompletePowerBIRestoreService.restore_pbix_files`
(`restore_service.py` lines 626-664): it builds `<backup_folder>/pbix_files`
and calls `restore_reports_pbix` with three positional arguments
(lines 653-657); its `except` block re-raises (line 664). -/
def restore_pbix_files (fs : FsEnv) (env : String → ItemEnv)
    (initialListing : Except String (List DatasetInfo))
    (backup_folder : String) (target_workspace_id : String) :
    Except String ReportsResults :=
  let pbix_path := backup_folder ++ "/pbix_files"
  match call_restore_reports_pbix fs env initialListing
      [target_workspace_id, pbix_path, target_workspace_id] with
  | Except.ok r => Except.ok r
  | Except.error e => Except.error e

/-! ## Concrete scenario instances used by counterexamples and witnesses -/

/-- Item environment in which every import is accepted and every post-import
lookup succeeds but returns no datasets. -/
def alwaysOkItemEnv : String → ItemEnv := fun _ => ⟨Except.ok true, Except.ok []⟩

/-- Target workspace listing holding datasets named `A` and `A_2`. -/
def c1Listing : Except String (List DatasetInfo) :=
  Except.ok [⟨"id-a", "A"⟩, ⟨"id-a2", "A_2"⟩]

/-- Reports phase run importing a single file `A.pbix` into a workspace whose
dataset names are `{A, A_2}`. -/
def c1Run : ReportsResults :=
  restore_reports_pbix alwaysOkItemEnv true c1Listing ["A"]

/-- A remote PATCH policy that accepts every request with status 200. -/
def okPatch : String → ScheduleConfig → Nat := fun _ _ => 200

/-- The schedule entry of the spec scenario:
`{dataset_name: "X", schedule: {enabled: true, days: [], times: ["01:00"]}}`. -/
def c2Entry : ScheduleEntry :=
  { dataset_name := "X",
    schedule := { days := [], times := ["01:00"], enabled := true,
                  localTimeZoneId := "UTC", notifyOption := "MailOnFailure" } }

/-- A target workspace containing a dataset named `X`, with a working listing
endpoint and no configured schedules. -/
def c2Remote : Remote :=
  { datasets := [⟨"idX", "X"⟩], listingOk := true, schedules := fun _ => none }

/-- The refresh-schedules phase run of the spec scenario. -/
def c2Run : RefreshAcc := restore_refresh_schedules okPatch c2Remote [c2Entry] none

/-- The accumulator the refresh-schedules phase starts its entry loop from. -/
def refreshInit (remote : Remote) : RefreshAcc :=
  { results := { status := "completed", restored := 0, failed := 0, skipped := 0, details := [] },
    remote := remote, patches := [] }

/-- Item environment whose import call raises on the file `f2` and is accepted
on every other file. -/
def c6Env : String → ItemEnv := fun s =>
  if s == "f2" then ⟨Except.error "boom", Except.ok []⟩
  else ⟨Except.ok true, Except.ok []⟩

/-- A schedule entry that is enabled with both days and times populated. -/
def c10Entry : ScheduleEntry :=
  { dataset_name := "X",
    schedule := { days := ["Monday"], times := ["01:00"], enabled := true,
                  localTimeZoneId := "UTC", notifyOption := "MailOnFailure" } }

/-- A target workspace whose dataset listing call fails. -/
def c10Remote : Remote :=
  { datasets := [], listingOk := false, schedules := fun _ => none }

/-- The accumulator `restore_reports_pbix` starts its item loop from, for a
run that found `found` files: fresh counters, the `existing_datasets` names
from the initial listing (empty when that call failed), and the Python
variable `new_dataset_id` still unbound. -/
def reportsInitAcc (found : Nat) (initialListing : Except String (List DatasetInfo)) : ReportsAcc :=
  ⟨⟨"in_progress", 0, 0, 0, [], found, [], none⟩,
   (match initialListing with
    | Except.ok ds => ds.map (fun d => d.name)
    | Except.error _ => []), none⟩

/-- Decimal rendering of a natural number as a character list, most
significant digit first.  This is the digit list `Nat.repr` produces (shown by
`toDigitsCore_eq_decRepr`); it is introduced because its structural recursion
makes injectivity of the numeric suffix of `candidateName` provable, which in
turn shows the duplicate-name loop fuel of `firstFree` suffices. -/
def decRepr (n : Nat) : List Char :=
  if _h : n < 10 then [Nat.digitChar n]
  else decRepr (n / 10) ++ [Nat.digitChar (n % 10)]
decreasing_by
  exact Nat.div_lt_self (by omega) (by omega)

/-! ## Theorems -/

/-- C9: for every filesystem, item environment, listing, backup folder and
target workspace, `restore_pbix_files` raises (returns an exception) and never
returns an import-result dictionary, because its call site passes three
positional arguments to `restore_reports_pbix`, which accepts only two. -/
theorem c9_restore_pbix_files_always_raises
    (fs : FsEnv) (env : String → ItemEnv)
    (initialListing : Except String (List DatasetInfo))
    (backup_folder target_workspace_id : String) :
    restore_pbix_files fs env initialListing backup_folder target_workspace_id =
      Except.error
        "TypeError: restore_reports_pbix takes 3 positional arguments but 4 were given" := by
  rfl

/-- C3 (code bug): the orchestrated run records the Reports phase as failed
with the `AttributeError` raised by calling `.get` on the int returned by the
legacy `restore_reports`, and therefore always passes the empty identifier
mapping into the RefreshSchedules phase invocation, for every environment and
backup — the mapping recorded by `restore_reports_pbix` is never captured. -/
theorem c3_mapping_never_propagated {π : Type} (env : OrchEnv π) (backup : BackupData) :
    (restore_all_components env backup).reports =
      Except.error "AttributeError: int object has no attribute get" ∧
    (restore_all_components env backup).refresh =
      env.refreshPhase backup.refresh_schedules [] := by
  exact ⟨rfl, rfl⟩

/-- C4: in the orchestrated run each phase call is isolated — a phase call
that raises has the error recorded as that component (status failed with the
error detail), every other component equals the outcome of its own phase call
regardless, and the run always finishes with status completed; in particular
the Reports-phase exception never suppresses the five later phases. -/
theorem c4_phase_isolation {π : Type} (env : OrchEnv π) (backup : BackupData) :
    (restore_all_components env backup).status = "completed" ∧
    (restore_all_components env backup).reports =
      Except.error "AttributeError: int object has no attribute get" ∧
    (restore_all_components env backup).datasets = env.datasetsPhase backup.datasets ∧
    (restore_all_components env backup).refresh =
      env.refreshPhase backup.refresh_schedules [] ∧
    (restore_all_components env backup).dashboards = env.dashboardsPhase backup.dashboards ∧
    (restore_all_components env backup).dataflows = env.dataflowsPhase backup.dataflows ∧
    (restore_all_components env backup).apps = env.appsPhase backup.apps := by
  exact ⟨rfl, rfl, rfl, rfl, rfl, rfl, rfl⟩

/-- C1 counterexample: with target dataset names `{A, A_2}`, importing `A.pbix`
resolves the name to `A_1`, not `A_3` as the claim states (the counter of the
duplicate loop starts at 1, so the first suffix tried is `_1`). -/
theorem c1_counterexample :
    c1Run.details = [ReportDetail.imported "A.pbix" "A_1" "A" "pending"] ∧
    c1Run.duplicate_handled = 1 ∧ "A_1" ≠ "A_3" := by
  refine ⟨by decide, by decide, by decide⟩

/-- C2 counterexample: in the scenario with the single entry
`{dataset_name: "X", schedule: {enabled: true, days: [], times: ["01:00"]}}`
whose name resolves in the target workspace, the phase reports `restored = 1`
(the entry is counted restored because `update_refresh_schedule` returns
`True` on the inconsistent-schedule skip path), contradicting the claimed
`restored = 0`. -/
theorem c2_counterexample :
    c2Run.results.restored = 1 ∧ c2Run.results.restored ≠ 0 := by
  refine ⟨by decide, by decide⟩

/-- C8 counterexample: for the file stem `3report` and an empty target
workspace the dataset display name posted by `import_pbix` is the raw stem
`3report`, which still begins with a digit — the sanitised name (which would
be `Report_3report`) is not the name used at import. -/
theorem c8_counterexample :
    (import_pbix_names "w" "3report" none (Except.ok [])).2.displayName = "3report" ∧
    startsWithDigit "3report" = true ∧
    sanitizeReportName "3report" = "Report_3report" := by
  refine ⟨by decide, by decide, by decide⟩

/-- The sixteen digit characters are pairwise distinct below base 10. -/
theorem digitChar_inj_lt :
    ∀ a, a < 10 → ∀ b, b < 10 → Nat.digitChar a = Nat.digitChar b → a = b := by
  decide

/-- A decimal rendering always has at least one digit. -/
theorem decRepr_ne_nil (n : Nat) : decRepr n ≠ [] := by
  unfold decRepr
  split_ifs <;> simp

/-- The fuelled digit loop of `Nat.repr` computes `decRepr` whenever the fuel
exceeds the number (which `Nat.toDigits` guarantees with fuel `n + 1`). -/
theorem toDigitsCore_eq_decRepr :
    ∀ (fuel n : Nat) (ds : List Char), n < fuel →
      Nat.toDigitsCore 10 fuel n ds = decRepr n ++ ds
  | 0, n, _, h => absurd h (Nat.not_lt_zero n)
  | fuel + 1, n, ds, h => by
      unfold Nat.toDigitsCore
      by_cases h0 : n / 10 = 0
      · rw [if_pos h0]
        have hn : n < 10 := by omega
        unfold decRepr
        rw [dif_pos hn, Nat.mod_eq_of_lt hn]
        rfl
      · rw [if_neg h0]
        have hlt : n / 10 < fuel := by
          have h1 : n / 10 < n := Nat.div_lt_self (by omega) (by omega)
          omega
        rw [toDigitsCore_eq_decRepr fuel (n / 10) _ hlt]
        have hge : ¬ n < 10 := by omega
        conv_rhs => rw [decRepr]
        rw [dif_neg hge]
        simp

/-- `Nat.repr` is the string of the `decRepr` digit list. -/
theorem repr_eq_decRepr (n : Nat) : Nat.repr n = (decRepr n).asString := by
  unfold Nat.repr Nat.toDigits
  rw [toDigitsCore_eq_decRepr (n + 1) n [] (Nat.lt_succ_self n)]
  rw [List.append_nil]

/-- Decimal renderings of distinct numbers differ: last digits and the
remaining prefixes are both recovered. -/
theorem decRepr_inj (n : Nat) : ∀ m, decRepr n = decRepr m → n = m := by
  induction n using Nat.strong_induction_on with
  | _ n ih =>
    intro m h
    unfold decRepr at h
    split_ifs at h with h1 h2 h2
    · simp only [List.cons.injEq, and_true] at h
      exact digitChar_inj_lt n h1 m h2 h
    · exfalso
      have hlen := congrArg List.length h
      simp only [List.length_singleton, List.length_append] at hlen
      have := decRepr_ne_nil (m / 10)
      have h0 : (decRepr (m / 10)).length = 0 := by omega
      exact this (List.eq_nil_of_length_eq_zero h0)
    · exfalso
      have hlen := congrArg List.length h
      simp only [List.length_singleton, List.length_append] at hlen
      have := decRepr_ne_nil (n / 10)
      have h0 : (decRepr (n / 10)).length = 0 := by omega
      exact this (List.eq_nil_of_length_eq_zero h0)
    · have h2 := congrArg List.reverse h
      simp only [List.reverse_append, List.reverse_singleton, List.singleton_append,
        List.cons.injEq] at h2
      have h10 : n % 10 = m % 10 :=
        digitChar_inj_lt _ (Nat.mod_lt _ (by omega)) _ (Nat.mod_lt _ (by omega)) h2.1
      have hdiv : n / 10 = m / 10 :=
        ih (n / 10) (Nat.div_lt_self (by omega) (by omega)) (m / 10)
          (List.reverse_injective h2.2)
      omega

/-- Two candidate names over the same base agree only at the same counter. -/
theorem candidateName_counter_inj (base : String) (c c' : Nat)
    (h : candidateName base c = candidateName base c') : c = c' := by
  unfold candidateName at h
  have hd := congrArg String.data h
  simp only [String.data_append] at hd
  have h1 : (toString c).data = (toString c').data := List.append_cancel_left hd
  have h2 : Nat.repr c = Nat.repr c' := String.ext h1
  rw [repr_eq_decRepr, repr_eq_decRepr] at h2
  have h3 : decRepr c = decRepr c' := congrArg String.data h2
  exact decRepr_inj c c' h3

/-- Pigeonhole: among any `existing.length + 1` consecutive counters some
candidate name is absent from `existing`, because distinct counters give
distinct candidates. -/
theorem exists_free_candidate (existing : List String) (base : String) (c0 : Nat) :
    ∃ i, i < existing.length + 1 ∧ candidateName base (c0 + i) ∉ existing := by
  by_contra hall
  push_neg at hall
  have hsub : ((List.range (existing.length + 1)).map
      (fun i => candidateName base (c0 + i))).toFinset ⊆ existing.toFinset := by
    intro x hx
    rw [List.mem_toFinset] at hx ⊢
    rw [List.mem_map] at hx
    obtain ⟨i, hi, rfl⟩ := hx
    exact hall i (List.mem_range.mp hi)
  have hnodup : ((List.range (existing.length + 1)).map
      (fun i => candidateName base (c0 + i))).Nodup := by
    refine List.Nodup.map ?_ (List.nodup_range _)
    intro a b hab
    have := candidateName_counter_inj base (c0 + a) (c0 + b) hab
    omega
  have hcard1 : ((List.range (existing.length + 1)).map
      (fun i => candidateName base (c0 + i))).toFinset.card = existing.length + 1 := by
    rw [List.toFinset_card_of_nodup hnodup]
    simp
  have hcard2 := Finset.card_le_card hsub
  have hcard3 := List.toFinset_card_le (l := existing)
  omega

/-- As long as some candidate within the fuel is free, the duplicate-name loop
returns the FIRST free counter at or after its start: the result is free and
every smaller counter from the start is taken. -/
theorem firstFreeAux_spec (existing : List String) (base : String) :
    ∀ (fuel c0 : Nat),
      (∃ i, i < fuel ∧ candidateName base (c0 + i) ∉ existing) →
      candidateName base (firstFreeAux existing base fuel c0) ∉ existing ∧
      c0 ≤ firstFreeAux existing base fuel c0 ∧
      ∀ k, c0 ≤ k → k < firstFreeAux existing base fuel c0 → candidateName base k ∈ existing
  | 0, c0, h => by
      obtain ⟨i, hi, _⟩ := h
      omega
  | fuel + 1, c0, h => by
      unfold firstFreeAux
      by_cases hc : candidateName base c0 ∈ existing
      · rw [if_pos hc]
        have h' : ∃ i, i < fuel ∧ candidateName base (c0 + 1 + i) ∉ existing := by
          obtain ⟨i, hi, hfree⟩ := h
          cases i with
          | zero => exact absurd hc hfree
          | succ j =>
              refine ⟨j, by omega, ?_⟩
              rwa [show c0 + 1 + j = c0 + (j + 1) from by omega]
        obtain ⟨hf, hge, hmin⟩ := firstFreeAux_spec existing base fuel (c0 + 1) h'
        refine ⟨hf, by omega, ?_⟩
        intro k hk1 hk2
        rcases Nat.eq_or_lt_of_le hk1 with heq | hk1'
        · rw [← heq]
          exact hc
        · exact hmin k (by omega) hk2
      · rw [if_neg hc]
        exact ⟨hc, Nat.le_refl _, fun k hk1 hk2 => absurd (Nat.lt_of_le_of_lt hk1 hk2)
          (Nat.lt_irrefl c0)⟩

/-- The fuel `existing.length + 1` of `firstFree` always suffices: the counter
returned is the least counter ≥ 1 whose candidate is unused. -/
theorem firstFree_spec (existing : List String) (base : String) :
    candidateName base (firstFree existing base) ∉ existing ∧
    1 ≤ firstFree existing base ∧
    ∀ k, 1 ≤ k → k < firstFree existing base → candidateName base k ∈ existing := by
  unfold firstFree
  exact firstFreeAux_spec existing base (existing.length + 1) 1
    (exists_free_candidate existing base 1)

/-- C1 (amended): whenever the derived display name collides with an existing
name, the Reports phase resolves it to `name_c` for the FIRST counter
c = 1, 2, … whose candidate is unused — the resolved candidate is not taken
and every candidate with a smaller counter down to `_1` is taken — and
`duplicate_handled` is incremented once for the colliding item; with target
names `{A, A_2}` an attempt to import `A` resolves to `A_1`, with `{A, A_1}`
to `A_2`, and with `{A, A_1, A_2}` to `A_3`. -/
theorem c1_amended_first_free_suffix (existing : List String) (name : String)
    (h1 : name ∈ existing) :
    (∃ c : Nat, 1 ≤ c ∧
        resolveReportName existing name = (candidateName name c, true) ∧
        candidateName name c ∉ existing ∧
        (∀ k, 1 ≤ k → k < c → candidateName name k ∈ existing)) ∧
    (resolveReportName ["A", "A_2"] "A" = ("A_1", true) ∧
      resolveReportName ["A", "A_1"] "A" = ("A_2", true) ∧
      resolveReportName ["A", "A_1", "A_2"] "A" = ("A_3", true)) ∧
    c1Run.duplicate_handled = 1 ∧
    c1Run.details = [ReportDetail.imported "A.pbix" "A_1" "A" "pending"] := by
  obtain ⟨hf, hge, hmin⟩ := firstFree_spec existing name
  refine ⟨⟨firstFree existing name, hge, ?_, hf, hmin⟩,
    ⟨by decide, by decide, by decide⟩, by decide, by decide⟩
  unfold resolveReportName
  rw [if_pos h1]

/-- Witness for C1 (amended) at the collision `{A, A_1}` with import attempt
`A`, where the first free counter is 2. -/
theorem c1_amended_witness :
    ("A" ∈ ["A", "A_1"]) ∧
    ((∃ c : Nat, 1 ≤ c ∧
        resolveReportName ["A", "A_1"] "A" = (candidateName "A" c, true) ∧
        candidateName "A" c ∉ ["A", "A_1"] ∧
        (∀ k, 1 ≤ k → k < c → candidateName "A" k ∈ ["A", "A_1"])) ∧
      (resolveReportName ["A", "A_2"] "A" = ("A_1", true) ∧
        resolveReportName ["A", "A_1"] "A" = ("A_2", true) ∧
        resolveReportName ["A", "A_1", "A_2"] "A" = ("A_3", true)) ∧
      c1Run.duplicate_handled = 1 ∧
      c1Run.details = [ReportDetail.imported "A.pbix" "A_1" "A" "pending"]) :=
  ⟨by decide, c1_amended_first_free_suffix ["A", "A_1"] "A" (by decide)⟩

/-- C2 (amended): an entry whose dataset name resolves and whose schedule has
`enabled = true` with exactly one of days/times empty is processed with no
remote PATCH issued and no state change, but is counted as restored (status
`configured`), because `update_refresh_schedule` returns `True` on its
inconsistent-schedule skip path; in the spec scenario the phase therefore
reports `restored = 1, skipped = 0`, overall success, and zero PATCH
requests. -/
theorem c2_amended_one_empty_counts_restored
    (patchStatus : String → ScheduleConfig → Nat)
    (table : List (String × String)) (mapping : Option (List (String × String)))
    (acc : RefreshAcc) (e : ScheduleEntry)
    (hres : pyFalsyId (resolveDatasetId mapping table e.dataset_name) = false)
    (hen : e.schedule.enabled = true)
    (hone : (e.schedule.days = [] ∧ e.schedule.times ≠ []) ∨
            (e.schedule.days ≠ [] ∧ e.schedule.times = [])) :
    processEntry patchStatus table mapping acc e =
      { acc with results := { acc.results with
          restored := acc.results.restored + 1,
          details := acc.results.details ++
            [RefreshDetail.configured e.dataset_name
              ((resolveDatasetId mapping table e.dataset_name).getD "")] } } ∧
    (c2Run.results.restored = 1 ∧ c2Run.results.skipped = 0 ∧
      c2Run.results.status = "completed" ∧ c2Run.patches = []) := by
  refine ⟨?_, by decide, by decide, by decide, by decide⟩
  simp only [processEntry]
  rw [hres]
  simp only [Bool.false_eq_true, if_false]
  rcases hone with ⟨hd, ht⟩ | ⟨hd, ht⟩
  · rcases hts : e.schedule.times with _ | ⟨t, ts⟩
    · exact absurd hts ht
    · simp [update_refresh_schedule, hen, hd, hts]
  · rcases hds : e.schedule.days with _ | ⟨d, ds⟩
    · exact absurd hds hd
    · simp [update_refresh_schedule, hen, ht, hds]

/-- Witness for C2 (amended) at the spec scenario entry for dataset `X`. -/
theorem c2_amended_witness :
    processEntry okPatch [("X", "idX")] none (refreshInit c2Remote) c2Entry =
      { (refreshInit c2Remote) with results := { (refreshInit c2Remote).results with
          restored := (refreshInit c2Remote).results.restored + 1,
          details := (refreshInit c2Remote).results.details ++
            [RefreshDetail.configured c2Entry.dataset_name
              ((resolveDatasetId none [("X", "idX")] c2Entry.dataset_name).getD "")] } } ∧
    (c2Run.results.restored = 1 ∧ c2Run.results.skipped = 0 ∧
      c2Run.results.status = "completed" ∧ c2Run.patches = []) :=
  c2_amended_one_empty_counts_restored okPatch [("X", "idX")] none
    (refreshInit c2Remote) c2Entry (by decide) (by decide)
    (Or.inl ⟨by decide, by decide⟩)

/-- C5: a schedule entry whose dataset name resolves to nothing (or to a falsy
id) under mapping-then-listing resolution is recorded with a skipped detail
and counted in `skipped` — never in `failed` or `restored` — with no PATCH
issued; and the resolution itself prefers the identifier mapping whenever the
mapping is truthy and holds the name, falling back to the live dataset table
exactly when the mapping lacks it. -/
theorem c5_resolution_and_skip
    (patchStatus : String → ScheduleConfig → Nat)
    (table : List (String × String)) (mapping : Option (List (String × String)))
    (acc : RefreshAcc) (e : ScheduleEntry)
    (h : pyFalsyId (resolveDatasetId mapping table e.dataset_name) = true) :
    processEntry patchStatus table mapping acc e =
      { acc with results := { acc.results with
          skipped := acc.results.skipped + 1,
          details := acc.results.details ++
            [RefreshDetail.skipped e.dataset_name "Dataset not found in target workspace"] } } ∧
    (∀ (m tbl : List (String × String)) (n : String),
        pyTruthyMapping (some m) = true → hasKey m n = true →
        resolveDatasetId (some m) tbl n = dictGet m n) ∧
    (∀ (m tbl : List (String × String)) (n : String),
        hasKey m n = false →
        resolveDatasetId (some m) tbl n = resolveDatasetId none tbl n) := by
  refine ⟨?_, ?_, ?_⟩
  · simp only [processEntry]
    rw [h]
    simp
  · intro m tbl n hm hk
    simp [resolveDatasetId, hm, hk]
  · intro m tbl n hk
    simp [resolveDatasetId, pyTruthyMapping, hk]

/-- Witness for C5 at an entry whose name resolves neither through the (empty)
mapping nor through the (empty) dataset table. -/
theorem c5_witness :
    (processEntry okPatch [] (some []) (refreshInit c10Remote)
        ⟨"Y", ⟨[], [], false, "UTC", "MailOnFailure"⟩⟩ =
      { (refreshInit c10Remote) with results := { (refreshInit c10Remote).results with
          skipped := (refreshInit c10Remote).results.skipped + 1,
          details := (refreshInit c10Remote).results.details ++
            [RefreshDetail.skipped "Y" "Dataset not found in target workspace"] } }) ∧
    (∀ (m tbl : List (String × String)) (n : String),
        pyTruthyMapping (some m) = true → hasKey m n = true →
        resolveDatasetId (some m) tbl n = dictGet m n) ∧
    (∀ (m tbl : List (String × String)) (n : String),
        hasKey m n = false →
        resolveDatasetId (some m) tbl n = resolveDatasetId none tbl n) :=
  c5_resolution_and_skip okPatch [] (some []) (refreshInit c10Remote)
    ⟨"Y", ⟨[], [], false, "UTC", "MailOnFailure"⟩⟩ (by decide)

/-- Every branch of the Reports item loop appends exactly one detail record,
advances `imported + failed` by at least one, and leaves `pbix_files_found`
untouched: every item is attempted and accounted for. -/
theorem reportsItemStep_progress (env : String → ItemEnv) (acc : ReportsAcc) (stem : String) :
    (∃ d, (reportsItemStep env acc stem).results.details = acc.results.details ++ [d]) ∧
    acc.results.imported + acc.results.failed + 1 ≤
      (reportsItemStep env acc stem).results.imported +
        (reportsItemStep env acc stem).results.failed ∧
    (reportsItemStep env acc stem).results.pbix_files_found = acc.results.pbix_files_found := by
  simp only [reportsItemStep]
  rcases him : (env stem).importResult with e | b
  · by_cases hdup : (resolveReportName acc.existing stem).2 <;> simp [hdup] <;> omega
  · cases b
    · by_cases hdup : (resolveReportName acc.existing stem).2 <;> simp [hdup] <;> omega
    · rcases hla : (env stem).lookupAfter with e2 | ds
      · rcases hnds : acc.nds with _ | stale
        · by_cases hdup : (resolveReportName acc.existing stem).2 <;> simp [hdup] <;> omega
        · by_cases hdup : (resolveReportName acc.existing stem).2 <;> simp [hdup] <;> omega
      · rcases hfd : (ds.find? (fun d => d.name == (resolveReportName acc.existing stem).1)).map
            (fun d => d.id) with _ | id
        · by_cases hdup : (resolveReportName acc.existing stem).2 <;> simp [hdup, hfd] <;> omega
        · by_cases hid : id == "" <;> by_cases hdup : (resolveReportName acc.existing stem).2 <;>
            simp [hdup, hfd, hid] <;> omega

/-- An item whose import call raises is recorded as an errored detail, counted
once in `failed`, with `imported` and `existing_datasets` untouched. -/
theorem reportsItemStep_import_error (env : String → ItemEnv) (acc : ReportsAcc)
    (stem msg : String) (h : (env stem).importResult = Except.error msg) :
    (reportsItemStep env acc stem).results.details =
      acc.results.details ++ [ReportDetail.errored (stem ++ ".pbix") msg] ∧
    (reportsItemStep env acc stem).results.failed = acc.results.failed + 1 ∧
    (reportsItemStep env acc stem).results.imported = acc.results.imported := by
  simp only [reportsItemStep, h]
  by_cases hdup : (resolveReportName acc.existing stem).2 <;> simp [hdup]

/-- Three chained item steps with the middle import raising: three detail
records in order, the middle one errored, at least three outcome counts. -/
theorem fold3_details (env : String → ItemEnv) (acc0 : ReportsAcc) (f1 f2 f3 msg : String)
    (h2 : (env f2).importResult = Except.error msg) :
    (reportsItemStep env (reportsItemStep env (reportsItemStep env acc0 f1) f2) f3).results.details.length
      = acc0.results.details.length + 3 ∧
    ((reportsItemStep env (reportsItemStep env (reportsItemStep env acc0 f1) f2) f3).results.details)[acc0.results.details.length + 1]?
      = some (ReportDetail.errored (f2 ++ ".pbix") msg) ∧
    acc0.results.imported + acc0.results.failed + 3 ≤
      (reportsItemStep env (reportsItemStep env (reportsItemStep env acc0 f1) f2) f3).results.imported +
        (reportsItemStep env (reportsItemStep env (reportsItemStep env acc0 f1) f2) f3).results.failed ∧
    (reportsItemStep env (reportsItemStep env (reportsItemStep env acc0 f1) f2) f3).results.pbix_files_found
      = acc0.results.pbix_files_found := by
  obtain ⟨⟨d1, hd1⟩, hc1, hp1⟩ := reportsItemStep_progress env acc0 f1
  obtain ⟨hdet2, hf2, hi2⟩ :=
    reportsItemStep_import_error env (reportsItemStep env acc0 f1) f2 msg h2
  obtain ⟨_, _, hp2⟩ := reportsItemStep_progress env (reportsItemStep env acc0 f1) f2
  obtain ⟨⟨d3, hd3⟩, hc3, hp3⟩ :=
    reportsItemStep_progress env (reportsItemStep env (reportsItemStep env acc0 f1) f2) f3
  have hfinal :
      (reportsItemStep env (reportsItemStep env (reportsItemStep env acc0 f1) f2) f3).results.details
        = acc0.results.details ++ [d1] ++ [ReportDetail.errored (f2 ++ ".pbix") msg] ++ [d3] := by
    rw [hd3, hdet2, hd1]
  refine ⟨?_, ?_, by omega, by rw [hp3, hp2, hp1]⟩
  · rw [hfinal]; simp
  · rw [hfinal]
    rw [List.append_assoc, List.append_assoc]
    rw [List.getElem?_append_right (by omega)]
    simp

/-- C6: when the Reports phase processes three files and the import of the
second raises, every per-item error is caught inside the item loop: all three
items get a detail record (in order), the second record is the errored one,
the phase still completes, and the summary counts reflect at least one
outcome per item. -/
theorem c6_item_isolation (env : String → ItemEnv)
    (initialListing : Except String (List DatasetInfo)) (f1 f2 f3 msg : String)
    (h2 : (env f2).importResult = Except.error msg) :
    (restore_reports_pbix env true initialListing [f1, f2, f3]).pbix_files_found = 3 ∧
    (restore_reports_pbix env true initialListing [f1, f2, f3]).details.length = 3 ∧
    (restore_reports_pbix env true initialListing [f1, f2, f3]).details[1]? =
      some (ReportDetail.errored (f2 ++ ".pbix") msg) ∧
    (restore_reports_pbix env true initialListing [f1, f2, f3]).status = "completed" ∧
    3 ≤ (restore_reports_pbix env true initialListing [f1, f2, f3]).imported +
        (restore_reports_pbix env true initialListing [f1, f2, f3]).failed := by
  have hdef : restore_reports_pbix env true initialListing [f1, f2, f3] =
      { (reportsItemStep env (reportsItemStep env
          (reportsItemStep env (reportsInitAcc 3 initialListing) f1) f2) f3).results
        with status := "completed" } := rfl
  obtain ⟨hlen, hidx, hcnt, hpff⟩ :=
    fold3_details env (reportsInitAcc 3 initialListing) f1 f2 f3 msg h2
  rw [hdef]
  have hd0 : (reportsInitAcc 3 initialListing).results.details = [] := rfl
  have hi0 : (reportsInitAcc 3 initialListing).results.imported = 0 := rfl
  have hf0 : (reportsInitAcc 3 initialListing).results.failed = 0 := rfl
  have hp0 : (reportsInitAcc 3 initialListing).results.pbix_files_found = 3 := rfl
  rw [hd0] at hlen hidx
  rw [hi0, hf0] at hcnt
  rw [hp0] at hpff
  simp only [List.length_nil, Nat.zero_add] at hlen hidx hcnt
  exact ⟨hpff, hlen, hidx, rfl, hcnt⟩

/-- Witness for C6 on a concrete three-file run whose second import raises. -/
theorem c6_witness :
    (restore_reports_pbix c6Env true (Except.ok []) ["f1", "f2", "f3"]).pbix_files_found = 3 ∧
    (restore_reports_pbix c6Env true (Except.ok []) ["f1", "f2", "f3"]).details.length = 3 ∧
    (restore_reports_pbix c6Env true (Except.ok []) ["f1", "f2", "f3"]).details[1]? =
      some (ReportDetail.errored ("f2" ++ ".pbix") "boom") ∧
    (restore_reports_pbix c6Env true (Except.ok []) ["f1", "f2", "f3"]).status = "completed" ∧
    3 ≤ (restore_reports_pbix c6Env true (Except.ok []) ["f1", "f2", "f3"]).imported +
        (restore_reports_pbix c6Env true (Except.ok []) ["f1", "f2", "f3"]).failed :=
  c6_item_isolation c6Env (Except.ok []) "f1" "f2" "f3" "boom" rfl

/-- The boolean result and the issued PATCH requests of
`update_refresh_schedule` do not depend on the stored remote schedules: the
method never reads them. -/
theorem update_refresh_schedule_remote_indep (p : String → ScheduleConfig → Nat)
    (r1 r2 : Remote) (id : String) (cfg : ScheduleConfig) :
    (update_refresh_schedule p r1 id cfg).1 = (update_refresh_schedule p r2 id cfg).1 ∧
    (update_refresh_schedule p r1 id cfg).2.2 = (update_refresh_schedule p r2 id cfg).2.2 := by
  simp only [update_refresh_schedule]
  split_ifs <;> simp

/-- A PATCH only rewrites stored schedules: the dataset list and the health of
the listing endpoint are untouched. -/
theorem update_refresh_schedule_remote_shape (p : String → ScheduleConfig → Nat)
    (r : Remote) (id : String) (cfg : ScheduleConfig) :
    (update_refresh_schedule p r id cfg).2.1.datasets = r.datasets ∧
    (update_refresh_schedule p r id cfg).2.1.listingOk = r.listingOk := by
  simp only [update_refresh_schedule]
  split_ifs <;> simp

/-- The per-entry outcome and PATCH trace of the entry loop depend only on the
accumulated results and patches, never on the remote schedule store. -/
theorem processEntry_results_congr (p : String → ScheduleConfig → Nat)
    (table : List (String × String)) (mapping : Option (List (String × String)))
    (a1 a2 : RefreshAcc) (e : ScheduleEntry)
    (hres : a1.results = a2.results) (hpat : a1.patches = a2.patches) :
    (processEntry p table mapping a1 e).results = (processEntry p table mapping a2 e).results ∧
    (processEntry p table mapping a1 e).patches = (processEntry p table mapping a2 e).patches := by
  have hb := update_refresh_schedule_remote_indep p a1.remote a2.remote
      ((resolveDatasetId mapping table e.dataset_name).getD "")
      ⟨e.schedule.days, e.schedule.times, e.schedule.enabled,
       e.schedule.localTimeZoneId, e.schedule.notifyOption⟩
  by_cases hfal : pyFalsyId (resolveDatasetId mapping table e.dataset_name)
  · constructor <;> simp [processEntry, hfal, hres, hpat]
  · by_cases hok : (update_refresh_schedule p a1.remote
        ((resolveDatasetId mapping table e.dataset_name).getD "")
        ⟨e.schedule.days, e.schedule.times, e.schedule.enabled,
         e.schedule.localTimeZoneId, e.schedule.notifyOption⟩).1
    · have hok2 : (update_refresh_schedule p a2.remote
          ((resolveDatasetId mapping table e.dataset_name).getD "")
          ⟨e.schedule.days, e.schedule.times, e.schedule.enabled,
           e.schedule.localTimeZoneId, e.schedule.notifyOption⟩).1 = true := by
        rw [← hb.1]; exact hok
      constructor <;> simp [processEntry, hfal, hok, hok2, hres, hpat, hb.2]
    · have hok2 : ¬ (update_refresh_schedule p a2.remote
          ((resolveDatasetId mapping table e.dataset_name).getD "")
          ⟨e.schedule.days, e.schedule.times, e.schedule.enabled,
           e.schedule.localTimeZoneId, e.schedule.notifyOption⟩).1 = true := by
        rw [← hb.1]; exact hok
      constructor <;> simp [processEntry, hfal, hok, hok2, hres, hpat, hb.2]

/-- One entry step preserves the remote dataset list and listing health and
never changes the result status. -/
theorem processEntry_remote_shape (p : String → ScheduleConfig → Nat)
    (table : List (String × String)) (mapping : Option (List (String × String)))
    (acc : RefreshAcc) (e : ScheduleEntry) :
    (processEntry p table mapping acc e).remote.datasets = acc.remote.datasets ∧
    (processEntry p table mapping acc e).remote.listingOk = acc.remote.listingOk ∧
    (processEntry p table mapping acc e).results.status = acc.results.status := by
  have hs := update_refresh_schedule_remote_shape p acc.remote
      ((resolveDatasetId mapping table e.dataset_name).getD "")
      ⟨e.schedule.days, e.schedule.times, e.schedule.enabled,
       e.schedule.localTimeZoneId, e.schedule.notifyOption⟩
  by_cases hfal : pyFalsyId (resolveDatasetId mapping table e.dataset_name)
  · simp [processEntry, hfal]
  · by_cases hok : (update_refresh_schedule p acc.remote
        ((resolveDatasetId mapping table e.dataset_name).getD "")
        ⟨e.schedule.days, e.schedule.times, e.schedule.enabled,
         e.schedule.localTimeZoneId, e.schedule.notifyOption⟩).1 <;>
      simp [processEntry, hfal, hok, hs.1, hs.2]

/-- The whole entry loop computes the same results and PATCH trace from any
two accumulators agreeing on results and patches. -/
theorem foldl_processEntry_congr (p : String → ScheduleConfig → Nat)
    (table : List (String × String)) (mapping : Option (List (String × String))) :
    ∀ (entries : List ScheduleEntry) (a1 a2 : RefreshAcc),
      a1.results = a2.results → a1.patches = a2.patches →
      (entries.foldl (processEntry p table mapping) a1).results =
        (entries.foldl (processEntry p table mapping) a2).results ∧
      (entries.foldl (processEntry p table mapping) a1).patches =
        (entries.foldl (processEntry p table mapping) a2).patches
  | [], _, _, hr, hp => ⟨hr, hp⟩
  | e :: es, a1, a2, hr, hp => by
      obtain ⟨hr2, hp2⟩ := processEntry_results_congr p table mapping a1 a2 e hr hp
      simpa [List.foldl] using foldl_processEntry_congr p table mapping es _ _ hr2 hp2

/-- The whole entry loop preserves the remote dataset list, the listing health
and the result status. -/
theorem foldl_processEntry_shape (p : String → ScheduleConfig → Nat)
    (table : List (String × String)) (mapping : Option (List (String × String))) :
    ∀ (entries : List ScheduleEntry) (acc : RefreshAcc),
      (entries.foldl (processEntry p table mapping) acc).remote.datasets = acc.remote.datasets ∧
      (entries.foldl (processEntry p table mapping) acc).remote.listingOk = acc.remote.listingOk ∧
      (entries.foldl (processEntry p table mapping) acc).results.status = acc.results.status
  | [], _ => ⟨rfl, rfl, rfl⟩
  | e :: es, acc => by
      obtain ⟨h1, h2, h3⟩ := foldl_processEntry_shape p table mapping es
        (processEntry p table mapping acc e)
      obtain ⟨g1, g2, g3⟩ := processEntry_remote_shape p table mapping acc e
      refine ⟨?_, ?_, ?_⟩ <;> simp only [List.foldl_cons]
      · rw [h1, g1]
      · rw [h2, g2]
      · rw [h3, g3]

/-- C7: the RefreshSchedules phase is idempotent — running it a second time
with the same schedule entries, mapping and PATCH response policy, against the
remote state left by the first run, yields exactly the same per-entry results
and issues exactly the same PATCH requests as the first run (so a re-run is
never an error: no-op entries succeed again, actionable entries are restored
again). -/
theorem c7_refresh_idempotent (p : String → ScheduleConfig → Nat) (remote : Remote)
    (schedules : List ScheduleEntry) (mapping : Option (List (String × String))) :
    (restore_refresh_schedules p (restore_refresh_schedules p remote schedules mapping).remote
        schedules mapping).results =
      (restore_refresh_schedules p remote schedules mapping).results ∧
    (restore_refresh_schedules p (restore_refresh_schedules p remote schedules mapping).remote
        schedules mapping).patches =
      (restore_refresh_schedules p remote schedules mapping).patches := by
  have hdef : ∀ r : Remote, restore_refresh_schedules p r schedules mapping =
      schedules.foldl (processEntry p (datasetsTable r mapping) mapping) (refreshInit r) :=
    fun _ => rfl
  simp only [hdef]
  have hpres := foldl_processEntry_shape p (datasetsTable remote mapping) mapping schedules
    (refreshInit remote)
  have hD : (schedules.foldl (processEntry p (datasetsTable remote mapping) mapping)
      (refreshInit remote)).remote.datasets = remote.datasets := hpres.1
  have hL : (schedules.foldl (processEntry p (datasetsTable remote mapping) mapping)
      (refreshInit remote)).remote.listingOk = remote.listingOk := hpres.2.1
  have hcongr : ∀ (r1 r2 : Remote), r1.datasets = r2.datasets → r1.listingOk = r2.listingOk →
      datasetsTable r1 mapping = datasetsTable r2 mapping := by
    intro r1 r2 h1 h2
    simp [datasetsTable, h1, h2]
  have htab : datasetsTable (schedules.foldl (processEntry p (datasetsTable remote mapping) mapping)
      (refreshInit remote)).remote mapping = datasetsTable remote mapping :=
    hcongr _ _ hD hL
  rw [htab]
  exact foldl_processEntry_congr p (datasetsTable remote mapping) mapping schedules _ _ rfl rfl

/-- C10: when the dataset listing call fails at the start of the
RefreshSchedules phase, the phase does not fail — its status stays completed,
the name-lookup table becomes the supplied mapping (or the empty map without
one), and the whole run produces the same results and PATCH trace as a run
against a workspace whose live listing equals that mapping, so
mapping-resolvable entries are processed exactly as usual. -/
theorem c10_listing_failure_fallback (p : String → ScheduleConfig → Nat) (remote : Remote)
    (schedules : List ScheduleEntry) (mapping : Option (List (String × String)))
    (h : remote.listingOk = false) :
    (restore_refresh_schedules p remote schedules mapping).results.status = "completed" ∧
    datasetsTable remote mapping = mapping.getD [] ∧
    (restore_refresh_schedules p remote schedules mapping).results =
      (restore_refresh_schedules p
          ⟨(mapping.getD []).map (fun q => ⟨q.2, q.1⟩), true, remote.schedules⟩
          schedules mapping).results ∧
    (restore_refresh_schedules p remote schedules mapping).patches =
      (restore_refresh_schedules p
          ⟨(mapping.getD []).map (fun q => ⟨q.2, q.1⟩), true, remote.schedules⟩
          schedules mapping).patches := by
  have hdef : ∀ r : Remote, restore_refresh_schedules p r schedules mapping =
      schedules.foldl (processEntry p (datasetsTable r mapping) mapping) (refreshInit r) :=
    fun _ => rfl
  have htab1 : datasetsTable remote mapping = mapping.getD [] := by
    simp [datasetsTable, h]
  have htab2 : datasetsTable
      ⟨(mapping.getD []).map (fun q => ⟨q.2, q.1⟩), true, remote.schedules⟩ mapping
      = mapping.getD [] := by
    simp only [datasetsTable, List.map_map]
    have hcomp : ((fun d : DatasetInfo => (d.name, d.id)) ∘
        fun q : String × String => (⟨q.2, q.1⟩ : DatasetInfo)) = id := by
      funext q
      rfl
    rw [if_pos trivial, hcomp, List.map_id]
  refine ⟨?_, htab1, ?_, ?_⟩
  · rw [hdef remote]
    exact (foldl_processEntry_shape p (datasetsTable remote mapping) mapping schedules
      (refreshInit remote)).2.2
  · rw [hdef, hdef, htab1, htab2]
    exact (foldl_processEntry_congr p (mapping.getD []) mapping schedules (refreshInit remote)
      (refreshInit ⟨(mapping.getD []).map (fun q => ⟨q.2, q.1⟩), true, remote.schedules⟩)
      rfl rfl).1
  · rw [hdef, hdef, htab1, htab2]
    exact (foldl_processEntry_congr p (mapping.getD []) mapping schedules (refreshInit remote)
      (refreshInit ⟨(mapping.getD []).map (fun q => ⟨q.2, q.1⟩), true, remote.schedules⟩)
      rfl rfl).2

/-- Witness for C10 on a failed listing with a one-entry mapping that resolves
the single schedule entry. -/
theorem c10_witness :
    c10Remote.listingOk = false ∧
    ((restore_refresh_schedules okPatch c10Remote [c10Entry] (some [("X", "idX")])).results.status
        = "completed" ∧
      datasetsTable c10Remote (some [("X", "idX")]) =
        (some [("X", "idX")] : Option (List (String × String))).getD [] ∧
      (restore_refresh_schedules okPatch c10Remote [c10Entry] (some [("X", "idX")])).results =
        (restore_refresh_schedules okPatch
            ⟨((some [("X", "idX")] : Option (List (String × String))).getD []).map
                (fun q => ⟨q.2, q.1⟩), true, c10Remote.schedules⟩
            [c10Entry] (some [("X", "idX")])).results ∧
      (restore_refresh_schedules okPatch c10Remote [c10Entry] (some [("X", "idX")])).patches =
        (restore_refresh_schedules okPatch
            ⟨((some [("X", "idX")] : Option (List (String × String))).getD []).map
                (fun q => ⟨q.2, q.1⟩), true, c10Remote.schedules⟩
            [c10Entry] (some [("X", "idX")])).patches) :=
  ⟨rfl, c10_listing_failure_fallback okPatch c10Remote [c10Entry] (some [("X", "idX")]) rfl⟩

/-- Every character emitted by the per-character sanitisation pass is neither
path-unsafe nor a quote. -/
theorem sanitizeChar_good (a c : Char) (hc : c ∈ sanitizeChar a) :
    c ≠ ' ' ∧ c ≠ '/' ∧ c ≠ '\\' ∧ c ≠ quoteChar ∧ c ≠ apostropheChar := by
  unfold sanitizeChar at hc
  split_ifs at hc with h1 h2
  · simp at hc
    subst hc
    decide
  · simp at hc
  · simp at hc
    subst hc
    simp only [not_or] at h1 h2
    exact ⟨h1.1, h1.2.1, h1.2.2, h2.1, h2.2⟩

/-- C8 (amended): the sanitised `report_name` never begins with a digit and
contains none of the replaced or stripped characters (space, slash, backslash,
double or single quote); however this sanitised name is only used for logging
and the success message — the dataset display name actually posted at import
is the raw filename stem (see the C8 counterexample), which may still begin
with a digit. -/
theorem c8_amended_sanitize_properties (name : String) :
    startsWithDigit (sanitizeReportName name) = false ∧
    ∀ c ∈ (sanitizeReportName name).data,
      c ≠ ' ' ∧ c ≠ '/' ∧ c ≠ '\\' ∧ c ≠ quoteChar ∧ c ≠ apostropheChar := by
  have hgood : ∀ c ∈ (String.mk (name.data.flatMap sanitizeChar)).data,
      c ≠ ' ' ∧ c ≠ '/' ∧ c ≠ '\\' ∧ c ≠ quoteChar ∧ c ≠ apostropheChar := by
    intro c hc
    rw [List.mem_flatMap] at hc
    obtain ⟨a, _, hca⟩ := hc
    exact sanitizeChar_good a c hca
  simp only [sanitizeReportName]
  split_ifs with h0 h1 h2
  · exact absurd h1 (by decide)
  · exact ⟨by decide, by decide⟩
  · constructor
    · unfold startsWithDigit
      rw [show ("Report_" ++ String.mk (name.data.flatMap sanitizeChar)).data =
          'R' :: ("eport_".data ++ (String.mk (name.data.flatMap sanitizeChar)).data) from by
        rw [String.data_append]
        rfl]
      rfl
    · intro c hc
      rw [String.data_append] at hc
      rcases List.mem_append.mp hc with h | h
      · have hall : ∀ x ∈ "Report_".data,
            x ≠ ' ' ∧ x ≠ '/' ∧ x ≠ '\\' ∧ x ≠ quoteChar ∧ x ≠ apostropheChar := by decide
        exact hall c h
      · exact hgood c h
  · refine ⟨?_, hgood⟩
    cases hB : startsWithDigit (String.mk (name.data.flatMap sanitizeChar))
    · rfl
    · exact absurd hB h2

/-- Witness for C8 (amended) at a name with a leading digit, a space and a
slash. -/
theorem c8_amended_witness :
    startsWithDigit (sanitizeReportName "3a b/c") = false ∧
    ∀ c ∈ (sanitizeReportName "3a b/c").data,
      c ≠ ' ' ∧ c ≠ '/' ∧ c ≠ '\\' ∧ c ≠ quoteChar ∧ c ≠ apostropheChar :=
  c8_amended_sanitize_properties "3a b/c"
